import Mathlib

/-!
Verification development for the SVM machine layer of `bob.learn.libsvm`
(`src/xbob/learn/libsvm/kernel_machine_cxx.cpp`).

The development shallowly embeds the two stateful components the file
implements:

* `SVMFile` — the streaming reader for the sparse LIBSVM text format
  (constructor scan, `read`, `read_`, `reset`);
* `SupportVector` — the prediction engine (the `reset` recompute step, the
  HDF5 loading constructor, the normalization setters, the sparse-encoding
  helper `copy`, and the prediction entry points).

Modelling conventions:

* A text file is a `List (List Char)`: its newline-terminated lines, in
  order.  The C++ stream position becomes an index into that list.
* C `double` values are modelled as `Rat`.  All concrete values exercised
  by the theorems are exactly representable; IEEE special values
  (`Inf`/`NaN`, produced by the C code on division by zero) are outside
  the model, so theorems about the normalizing division carry a
  nonzero-divisor hypothesis.
* `std::istringstream` extraction is modelled by explicit token parsers.
  Following the C++11 semantics of `operator>>` on arithmetic types, a
  failed extraction stores zero into its target and puts the stream into a
  fail state, after which every further extraction is a no-op on a target
  that the previous failure already zeroed.  (A pair whose index parses but
  whose separator or value extraction fails leaves stale/indeterminate
  data in C++; the model collapses that unreachable-by-our-theorems corner
  into the zero case as well.)
* The wrapped libsvm solver is out of scope in the source (an opaque
  collaborator); `svm_model` is embedded as a record holding exactly the
  fields the wrapped code reads (`SV` index lists, `nr_class`) plus opaque
  decision functions for `svm_predict` / `svm_predict_values`.
* The out-of-bounds array write that `read_` can perform (undefined
  behaviour in C++) is modelled as a skipped write that raises an `oob`
  flag in the result, so that reachability of the out-of-bounds branch is
  observable.
-/

/-- Predicate `std::isspace` in the default locale, as used by `boost::trim` and by
stream extraction (`skipws`). -/
def isSpaceC (c : Char) : Bool :=
  c = ' ' || c = '\t' || c = '\n' || c = '\r' || c = '\x0b' || c = '\x0c'

/-- Implements `boost::trim`: strip leading and trailing whitespace. -/
def trimChars (s : List Char) : List Char :=
  ((s.dropWhile isSpaceC).reverse.dropWhile isSpaceC).reverse

/-- Whitespace skipping done by every formatted extraction (`skipws`). -/
def skipWs (s : List Char) : List Char := s.dropWhile isSpaceC

def isDigitC (c : Char) : Bool := '0' ≤ c && c ≤ '9'

def digitVal (c : Char) : Nat := c.toNat - '0'.toNat

def natOfDigits (ds : List Char) : Nat :=
  ds.foldl (fun a c => 10 * a + digitVal c) 0

/-- Parse one or more decimal digits; fails when the head is not a digit. -/
def parseDigits (s : List Char) : Option (Nat × List Char) :=
  if (s.takeWhile isDigitC).isEmpty then none
  else some (natOfDigits (s.takeWhile isDigitC), s.dropWhile isDigitC)

/-- Extraction `iss >> label` / `iss >> pos` for a signed integer target. -/
def parseIntTok (s : List Char) : Option (Int × List Char) :=
  match skipWs s with
  | '-' :: rest => (parseDigits rest).map (fun p => (-(p.1 : Int), p.2))
  | '+' :: rest => (parseDigits rest).map (fun p => ((p.1 : Int), p.2))
  | s1 => (parseDigits s1).map (fun p => ((p.1 : Int), p.2))

/-- Extraction `iss >> pos` for the `size_t` target used by the constructor scan. -/
def parseNatTok (s : List Char) : Option (Nat × List Char) :=
  parseDigits (skipWs s)

/-- Extraction `iss >> separator` for a `char` target: skip whitespace, take one char. -/
def parseCharTok (s : List Char) : Option (Char × List Char) :=
  match skipWs s with
  | c :: rest => some (c, rest)
  | [] => none

/-- Unsigned decimal literal with optional fractional part (`digits`,
`digits.digits`, `digits.` or `.digits`), as accepted for the values that
appear in LIBSVM data files.  (Exponents never occur in the inputs the
theorems exercise and are not modelled.) -/
def parseFrac (s : List Char) : Option (Rat × List Char) :=
  let ip := s.takeWhile isDigitC
  let s1 := s.dropWhile isDigitC
  match s1 with
  | '.' :: s2 =>
    let fp := s2.takeWhile isDigitC
    if ip.isEmpty && fp.isEmpty then none
    else
      some ((natOfDigits ip : Rat) + (natOfDigits fp : Rat) / ((10 : Rat) ^ fp.length),
            s2.dropWhile isDigitC)
  | _ => if ip.isEmpty then none else some ((natOfDigits ip : Rat), s1)

/-- Extraction `iss >> value` for a `double` target. -/
def parseRatTok (s : List Char) : Option (Rat × List Char) :=
  match skipWs s with
  | '-' :: rest => (parseFrac rest).map (fun p => (-p.1, p.2))
  | '+' :: rest => (parseFrac rest).map (fun p => (p.1, p.2))
  | s1 => parseFrac s1

/-- Helper `static bool is_colon(char i)` composed with `std::count_if` over the
line: number of `:` characters. -/
def countColons (s : List Char) : Nat := s.countP (fun c => c = ':')

/-- One `iss >> pos >> separator >> value` round of `SVMFile::read_`
(`pos` is `int` there). -/
def extractPair (s : List Char) : Option ((Int × Rat) × List Char) :=
  match parseIntTok s with
  | none => none
  | some (p, s1) =>
    match parseCharTok s1 with
    | none => none
    | some (_, s2) =>
      match parseRatTok s2 with
      | none => none
      | some (v, s3) => some ((p, v), s3)

/-- The extraction loop of `SVMFile::read_`: exactly `n` rounds of
`iss >> pos >> separator >> value`, whether or not the line still has
data.  Once an extraction fails the stream is in a fail state: that
extraction and all later ones leave `pos = 0`, `value = 0` (C++11). -/
def extractPairs : Nat → List Char → List (Int × Rat)
  | 0, _ => []
  | n + 1, s =>
    match extractPair s with
    | some (pv, s1) => pv :: extractPairs n s1
    | none => List.replicate (n + 1) ((0 : Int), (0 : Rat))

/-- One `iss >> pos >> separator >> value` round of the constructor scan
(`pos` is `size_t` there). -/
def extractNatPair (s : List Char) : Option ((Nat × Rat) × List Char) :=
  match parseNatTok s with
  | none => none
  | some (p, s1) =>
    match parseCharTok s1 with
    | none => none
    | some (_, s2) =>
      match parseRatTok s2 with
      | none => none
      | some (v, s3) => some ((p, v), s3)

/-- Positions extracted by the constructor scan loop of one line: up to
`n` rounds, stopping at the first failed extraction.  (A failed round
leaves `pos = 0`, and `if (m_shape < pos)` never fires for `pos = 0`
since `m_shape` starts at `0`, so dropping failed rounds is exact for the
shape computation.) -/
def scanPairs : Nat → List Char → List Nat
  | 0, _ => []
  | n + 1, s =>
    match extractNatPair s with
    | some (pv, s1) => pv.1 :: scanPairs n s1
    | none => []

/-- The per-line work of the constructor scan: parse the label, then run
`countColons line` extraction rounds collecting the positions. -/
def scanLine (line : List Char) : List Nat :=
  match parseIntTok line with
  | none => []
  | some (_, rest) => scanPairs (countColons line) rest

/-- State of `bob::machine::SVMFile`: the file's content (immutable on
disk for the lifetime of the object), the stream position as a line
index, and the two quantities computed by the constructor scan. -/
structure SVMFile where
  m_lines : List (List Char)
  m_pos : Nat
  m_shape : Nat
  m_n_samples : Nat
deriving DecidableEq

/-- Constructor `SVMFile::SVMFile`: scan the whole file; every non-empty trimmed line
bumps `m_n_samples` and folds its extracted positions into `m_shape` via
`if (m_shape < pos) m_shape = pos`; then seek back to the start. -/
def SVMFile.openFile (lines : List (List Char)) : SVMFile :=
  let ne := (lines.map trimChars).filter (fun l => !l.isEmpty)
  { m_lines := lines
    m_pos := 0
    m_shape := ne.foldl (fun sh l => (scanLine l).foldl (fun m p => if m < p then p else m) sh) 0
    m_n_samples := ne.length }

/-- The get-next-non-empty-line loop shared by the constructor and
`read_`: returns the trimmed line and the number of raw lines consumed,
or `none` at end of stream. -/
def findLine : List (List Char) → Option (List Char × Nat)
  | [] => none
  | l :: ls =>
    let t := trimChars l
    if t.isEmpty then (findLine ls).map (fun p => (p.1, p.2 + 1)) else some (t, 1)

/-- The write sequence `values(pos-1) = value` of `read_`, fold over the
extracted pairs.  An out-of-bounds index (undefined behaviour in the C++)
is modelled as a skipped write that sets the `oob` flag. -/
def applyWrites (v : List Rat) : List (Int × Rat) → List Rat × Bool
  | [] => (v, false)
  | pv :: rest =>
    if 0 ≤ pv.1 - 1 ∧ pv.1 - 1 < (v.length : Int) then
      applyWrites (v.set (pv.1 - 1).toNat pv.2) rest
    else
      ((applyWrites v rest).1, true)

/-- Result of one `read_` call: the returned `bool`, the outputs `label`
and `values`, the out-of-bounds-write flag, and the successor file
state. -/
structure ReadResult where
  ok : Bool
  label : Int
  values : List Rat
  oob : Bool
  next : SVMFile
deriving DecidableEq

/-- Method `SVMFile::read_` on an output array of extent `len`: fetch the next
non-empty line (returning `false` at end of stream), parse the label,
zero-fill the output, then run exactly `m_shape` extraction rounds and
perform the write `values(pos-1) = value` for each. -/
def SVMFile.read_ (f : SVMFile) (len : Nat) : ReadResult :=
  match findLine (f.m_lines.drop f.m_pos) with
  | none => ⟨false, 0, List.replicate len 0, false, { f with m_pos := f.m_lines.length }⟩
  | some (line, n) =>
    let init : List Rat := List.replicate len 0
    match parseIntTok line with
    | some (lab, rest) =>
      let r := applyWrites init (extractPairs f.m_shape rest)
      ⟨true, lab, r.1, r.2, { f with m_pos := f.m_pos + n }⟩
    | none =>
      let r := applyWrites init (List.replicate f.m_shape ((0 : Int), (0 : Rat)))
      ⟨true, 0, r.1, r.2, { f with m_pos := f.m_pos + n }⟩

/-- The single error kind `SVMFile::read` can raise (the spec's
`ShapeError`). -/
inductive FileError where
  | ShapeError
deriving DecidableEq

/-- Method `SVMFile::read`: throw unless the output extent equals `m_shape`,
else delegate to `read_`. -/
def SVMFile.read (f : SVMFile) (len : Nat) : Except FileError ReadResult :=
  if len ≠ f.m_shape then Except.error FileError.ShapeError
  else Except.ok (f.read_ len)

/-- Method `SVMFile::reset`: close and reopen the handle — the content is
unchanged, the read position returns to the start. -/
def SVMFile.reset (f : SVMFile) : SVMFile := { f with m_pos := 0 }

/-- End of stream: no non-empty line remains at the current position. -/
def SVMFile.eos (f : SVMFile) : Bool :=
  (findLine (f.m_lines.drop f.m_pos)).isNone

/-- State after `k` successive (unchecked) reads of extent `len`. -/
def SVMFile.afterReads (f : SVMFile) (len : Nat) : Nat → SVMFile
  | 0 => f
  | k + 1 => ((f.read_ len).next).afterReads len k

/-- The `(label, values)` sequence produced by up to `n` successive reads
(stopping at the first `false` return). -/
def readSeq (f : SVMFile) (len : Nat) : Nat → List (Int × List Rat)
  | 0 => []
  | n + 1 =>
    let r := f.read_ len
    if r.ok then (r.label, r.values) :: readSeq r.next len n else []

/-- The two-line example file of the specification's end-to-end
scenario. -/
def demoLines : List (List Char) :=
  ["1 1:0.5 3:2.0".data, "-1 2:1.0".data]

/-- One node of the solver's sparse encoding (`svm_node`): a 1-based
feature index and a value; index `-1` is the end sentinel. -/
structure SvmNode where
  index : Int
  value : Rat
deriving DecidableEq

/-- The opaque trained-model handle (`svm_model`), restricted to what the
wrapped code reads: `SV` holds, for each of the `l` support vectors, the
list of node indices before the `-1` sentinel; `nr_class` backs
`svm_get_nr_class`; `predict` and `predict_values` are the opaque solver
primitives `svm_predict` and `svm_predict_values` (the latter also
producing the decision values it stores into the caller's buffer). -/
structure SvmModel where
  SV : List (List Int)
  nr_class : Nat
  predict : List SvmNode → Rat
  predict_values : List SvmNode → Rat × List Rat

/-- State of `bob::machine::SupportVector`: the model handle, the cached
input size, the allocated scratch length (`m_input_cache` is observable
only through its size), and the normalization vectors. -/
structure SupportVector where
  m_model : SvmModel
  m_input_size : Nat
  m_cache_size : Nat
  m_input_sub : List Rat
  m_input_div : List Rat

/-- The inner loop body of `SupportVector::reset`:
`if (end->index > (int)m_input_size) m_input_size = end->index`. -/
def bumpIndex (m : Nat) (i : Int) : Nat :=
  if i > (m : Int) then i.toNat else m

/-- Method `SupportVector::reset`: scan every support vector's nodes for the
maximum index, reallocate the scratch to `1 + m_input_size` slots, and
reset the normalization vectors to zeros and ones of length
`inputSize()`. -/
def SupportVector.reset (sv : SupportVector) : SupportVector :=
  let sz := sv.m_model.SV.foldl (fun m nodes => nodes.foldl bumpIndex m) 0
  { sv with
    m_input_size := sz
    m_cache_size := 1 + sz
    m_input_sub := List.replicate sz 0
    m_input_div := List.replicate sz 1 }

/-- Constructor `SupportVector::SupportVector(boost::shared_ptr<svm_model>)`: adopt a
(non-null) handle and run `reset`. -/
def SupportVector.adopt (model : SvmModel) : SupportVector :=
  SupportVector.reset { m_model := model, m_input_size := 0, m_cache_size := 0,
                        m_input_sub := [], m_input_div := [] }

/-- The entries of the HDF5 configuration read by the loading
constructor.  The byte-buffer codec (`svm_unpickle`) is file I/O through
the out-of-scope solver, so the `svm_model` entry is embedded as the
model it decodes to. -/
structure HDF5Content where
  version : Nat
  svm_model : SvmModel
  input_subtract : List Rat
  input_divide : List Rat

/-- Constructor `SupportVector::SupportVector(bob::io::HDF5File&)`: unpickle the
stored model, run `reset` (which installs identity normalization), and
only then overwrite `m_input_sub` / `m_input_div` with the stored
vectors.  (The version check only emits a warning and does not alter the
state.) -/
def SupportVector.fromHDF5 (config : HDF5Content) : SupportVector :=
  let sv0 : SupportVector :=
    { m_model := config.svm_model, m_input_size := 0, m_cache_size := 0,
      m_input_sub := [], m_input_div := [] }
  let sv1 := sv0.reset
  { sv1 with m_input_sub := config.input_subtract, m_input_div := config.input_divide }

/-- Accessor `SupportVector::inputSize`. -/
def SupportVector.inputSize (sv : SupportVector) : Nat := sv.m_input_size

/-- Accessor `SupportVector::outputSize`: `nr_class == 2 ? 1 : nr_class`. -/
def SupportVector.outputSize (sv : SupportVector) : Nat :=
  if sv.m_model.nr_class = 2 then 1 else sv.m_model.nr_class

/-- The error taxonomy of the prediction engine entry points (all thrown
as `std::runtime_error` in the source, distinguished by message). -/
inductive SvmError where
  | DimensionError
  | ContiguityError
  | UnsupportedError
deriving DecidableEq

/-- Setter `SupportVector::setInputSubtraction`: length-only validation
(`inputSize() > v.extent(0)` throws), then store a copy. -/
def SupportVector.setInputSubtraction (sv : SupportVector) (v : List Rat) :
    Except SvmError SupportVector :=
  if sv.inputSize > v.length then Except.error SvmError.DimensionError
  else Except.ok { sv with m_input_sub := v }

/-- Setter `SupportVector::setInputDivision`: length-only validation
(`inputSize() > v.extent(0)` throws), then store a copy. -/
def SupportVector.setInputDivision (sv : SupportVector) (v : List Rat) :
    Except SvmError SupportVector :=
  if sv.inputSize > v.length then Except.error SvmError.DimensionError
  else Except.ok { sv with m_input_div := v }

/-- The static `copy` helper: for each `k` below `cache_size` (the
callers pass `m_input_size` here) compute
`tmp = (input(k) - sub(k)) / div(k)`; skip the slot when `tmp` is zero,
otherwise append the node `{index = k+1, value = tmp}`; finally write the
`-1` sentinel.  The scratch is modelled by the node list actually
written (slots past the sentinel are never read by the solver). -/
def copy (input : List Rat) (cache_size : Nat) (sub div : List Rat) : List SvmNode :=
  ((List.range cache_size).foldl (fun acc k =>
    let tmp := (input.getD k 0 - sub.getD k 0) / div.getD k 0
    if tmp = 0 then acc else acc ++ [⟨(k : Int) + 1, tmp⟩]) []) ++ [⟨-1, 0⟩]

/-- C `round`: half away from zero, applied to the solver's fractional
class return. -/
def roundC (x : Rat) : Int :=
  if x < 0 then -⌊-x + 1/2⌋ else ⌊x + 1/2⌋

/-- Method `SupportVector::predictClass_`: encode and call `svm_predict`. -/
def SupportVector.predictClass_ (sv : SupportVector) (input : List Rat) : Int :=
  roundC (sv.m_model.predict (copy input sv.m_input_size sv.m_input_sub sv.m_input_div))

/-- Method `SupportVector::predictClass`: input-length validation
(`input.extent(0) < inputSize()` throws), then the unchecked variant. -/
def SupportVector.predictClass (sv : SupportVector) (input : List Rat) :
    Except SvmError Int :=
  if input.length < sv.inputSize then Except.error SvmError.DimensionError
  else Except.ok (sv.predictClass_ input)

/-- Method `SupportVector::predictClassAndScores_`: encode and call
`svm_predict_values`, which fills the scores buffer and returns the
predicted class. -/
def SupportVector.predictClassAndScores_ (sv : SupportVector) (input : List Rat) :
    Int × List Rat :=
  let r := sv.m_model.predict_values
    (copy input sv.m_input_size sv.m_input_sub sv.m_input_div)
  (roundC r.1, r.2)

/-- Method `SupportVector::predictClassAndScores`: validate the input length,
the scores contiguity (lists are always densely packed in the model, so
that check never fires), and the scores length against
`N < 2 ? 1 : N*(N-1)/2` for `N = outputSize()`; then the unchecked
variant. -/
def SupportVector.predictClassAndScores (sv : SupportVector) (input : List Rat)
    (scoresLen : Nat) : Except SvmError (Int × List Rat) :=
  if input.length < sv.inputSize then Except.error SvmError.DimensionError
  else
    let N := sv.outputSize
    let size := if N < 2 then 1 else N * (N - 1) / 2
    if scoresLen ≠ size then Except.error SvmError.DimensionError
    else Except.ok (sv.predictClassAndScores_ input)

/-! ## Specification-level notions

These definitions follow the specification's vocabulary (records, maximum
index across all lines, number of non-empty lines) so that the behaviour
of the source-derived functions can be compared against them. -/

/-- The specification's `SparseRecord`: a label and the `index:value`
pairs of one line. -/
structure SparseRecord where
  label : Int
  pairs : List (Nat × Rat)
deriving DecidableEq

/-- All-or-nothing extraction of `n` pairs (no failed round). -/
def scanPairsFull : Nat → List Char → Option (List (Nat × Rat))
  | 0, _ => some []
  | n + 1, s =>
    match extractNatPair s with
    | none => none
    | some (pv, s1) => (scanPairsFull n s1).map (pv :: ·)

/-- A (trimmed, non-empty) line parses to a record when its label parses
and exactly as many pairs as it has colons extract successfully. -/
def parseRecord (line : List Char) : Option SparseRecord :=
  match parseIntTok line with
  | none => none
  | some (lab, rest) =>
    (scanPairsFull (countColons line) rest).map (fun prs => ⟨lab, prs⟩)

/-- A valid sparse-format file: its non-empty trimmed lines parse, in
order, to the given records. -/
def ValidFile (lines : List (List Char)) (records : List SparseRecord) : Prop :=
  ((lines.map trimChars).filter (fun l => !l.isEmpty)).map parseRecord = records.map some

instance (lines : List (List Char)) (records : List SparseRecord) :
    Decidable (ValidFile lines records) :=
  inferInstanceAs (Decidable
    (((lines.map trimChars).filter (fun l => !l.isEmpty)).map parseRecord = records.map some))

/-- Maximum feature index over a collection of sparse index lists
(`0` when there is none). -/
def maxFeatureIndex (svs : List (List Int)) : Nat :=
  ((svs.flatten).map Int.toNat).foldl max 0

/-- The records of the two-line example file. -/
def demoRecords : List SparseRecord :=
  [⟨1, [(1, 1/2), (3, 2)]⟩, ⟨-1, [(2, 1)]⟩]

/-- A small concrete two-class model (support-vector indices up to 3). -/
def demoModel : SvmModel :=
  { SV := [[1, 2], [2, 3]], nr_class := 2,
    predict := fun _ => 1, predict_values := fun _ => (1, [2]) }

/-- The engine adopting `demoModel`; its `inputSize` is `3`. -/
def demoMachine : SupportVector := SupportVector.adopt demoModel

/-! ## Helper lemmas -/

theorem ifLt_eq_max (m p : Nat) : (if m < p then p else m) = max m p := by
  rw [Nat.max_def]; split <;> split <;> omega

theorem foldl_ifLt_eq_max (l : List Nat) : ∀ acc : Nat,
    l.foldl (fun m p => if m < p then p else m) acc = l.foldl max acc := by
  induction l with
  | nil => intro acc; rfl
  | cons x xs ih => intro acc; rw [List.foldl_cons, List.foldl_cons, ifLt_eq_max, ih]

theorem scanPairs_of_full : ∀ (n : Nat) (s : List Char) (prs : List (Nat × Rat)),
    scanPairsFull n s = some prs → scanPairs n s = prs.map Prod.fst := by
  intro n
  induction n with
  | zero =>
    intro s prs h
    simp only [scanPairsFull, Option.some.injEq] at h
    cases h; rfl
  | succ n ih =>
    intro s prs h
    rw [scanPairsFull] at h
    rw [scanPairs]
    cases he : extractNatPair s with
    | none => simp only [he] at h; cases h
    | some p =>
      obtain ⟨pv, s1⟩ := p
      simp only [he] at h ⊢
      cases hf : scanPairsFull n s1 with
      | none => rw [hf] at h; simp at h
      | some tl =>
        simp only [hf, Option.map_some, Option.some.injEq] at h
        cases h
        simp only [List.map_cons]
        rw [ih s1 tl hf]

theorem scanLine_of_parse (line : List Char) (r : SparseRecord)
    (h : parseRecord line = some r) : scanLine line = r.pairs.map Prod.fst := by
  unfold parseRecord at h
  unfold scanLine
  cases hl : parseIntTok line with
  | none => simp only [hl] at h; cases h
  | some p =>
    obtain ⟨lab, rest⟩ := p
    simp only [hl] at h ⊢
    cases hf : scanPairsFull (countColons line) rest with
    | none => rw [hf] at h; simp at h
    | some prs =>
      simp only [hf, Option.map_some, Option.some.injEq] at h
      cases h
      exact scanPairs_of_full _ _ _ hf

theorem bumpIndex_eq_max (m : Nat) (i : Int) : bumpIndex m i = max m i.toNat := by
  unfold bumpIndex; split
  · exact (Nat.max_eq_right (by omega)).symm
  · exact (Nat.max_eq_left (by omega)).symm

theorem foldl_bumpIndex_eq (l : List Int) : ∀ acc : Nat,
    l.foldl bumpIndex acc = l.foldl (fun m i => max m i.toNat) acc := by
  induction l with
  | nil => intro acc; rfl
  | cons x xs ih => intro acc; rw [List.foldl_cons, List.foldl_cons, bumpIndex_eq_max, ih]

theorem reset_inputSize_eq (svs : List (List Int)) : ∀ acc : Nat,
    svs.foldl (fun m nodes => nodes.foldl bumpIndex m) acc =
      ((svs.flatten).map Int.toNat).foldl max acc := by
  induction svs with
  | nil => intro acc; rfl
  | cons x xs ih =>
    intro acc
    rw [List.foldl_cons, ih]
    have hx : x.foldl bumpIndex acc = (x.map Int.toNat).foldl max acc := by
      rw [foldl_bumpIndex_eq, List.foldl_map]
    rw [hx]
    simp only [List.flatten_cons, List.map_append, List.foldl_append]

theorem extractPairs_length : ∀ (n : Nat) (s : List Char), (extractPairs n s).length = n := by
  intro n
  induction n with
  | zero => intro s; rfl
  | succ n ih =>
    intro s
    rw [extractPairs]
    cases he : extractPair s with
    | none => simp
    | some p => simp [ih]

theorem applyWrites_oob_iff (prs : List (Int × Rat)) : ∀ v : List Rat,
    (applyWrites v prs).2 = false ↔ ∀ pv ∈ prs, 1 ≤ pv.1 ∧ pv.1 ≤ (v.length : Int) := by
  induction prs with
  | nil => intro v; simp [applyWrites]
  | cons pv rest ih =>
    intro v
    by_cases h : 0 ≤ pv.1 - 1 ∧ pv.1 - 1 < (v.length : Int)
    · rw [applyWrites, if_pos h, ih]
      rw [List.forall_mem_cons]
      simp only [List.length_set]
      constructor
      · intro hrest; exact ⟨⟨by omega, by omega⟩, hrest⟩
      · intro hh; exact hh.2
    · rw [applyWrites, if_neg h]
      simp only [List.forall_mem_cons]
      constructor
      · intro hc; simp at hc
      · rintro ⟨⟨h1, h2⟩, -⟩; exact absurd ⟨by omega, by omega⟩ h

theorem foldl_if_append (e : Nat → Rat) (l : List Nat) : ∀ acc : List SvmNode,
    l.foldl (fun a k => if e k = 0 then a else a ++ [⟨(k : Int) + 1, e k⟩]) acc
      = acc ++ l.filterMap (fun k =>
          if e k = 0 then none else some ⟨(k : Int) + 1, e k⟩) := by
  induction l with
  | nil => intro acc; simp
  | cons x xs ih =>
    intro acc
    rw [List.foldl_cons, List.filterMap_cons]
    by_cases h : e x = 0
    · rw [if_pos h, if_pos h, ih]
    · rw [if_neg h, if_neg h, ih, List.append_assoc]
      rfl

theorem read_next_fields (f : SVMFile) (len : Nat) :
    (f.read_ len).next.m_lines = f.m_lines ∧
    (f.read_ len).next.m_shape = f.m_shape ∧
    (f.read_ len).next.m_n_samples = f.m_n_samples := by
  rw [SVMFile.read_]
  split
  · exact ⟨rfl, rfl, rfl⟩
  · split
    · exact ⟨rfl, rfl, rfl⟩
    · exact ⟨rfl, rfl, rfl⟩

theorem read_next_reset (f : SVMFile) (len : Nat) :
    ((f.read_ len).next).reset = f.reset := by
  rw [SVMFile.read_]
  split
  · rfl
  · split
    · rfl
    · rfl

theorem afterReads_reset (f : SVMFile) (len : Nat) : ∀ k : Nat,
    ((f.afterReads len k)).reset = f.reset := by
  intro k
  induction k generalizing f with
  | zero => rfl
  | succ k ih =>
    rw [SVMFile.afterReads]
    rw [ih ((f.read_ len).next)]
    exact read_next_reset f len

instance {ε α : Type} [DecidableEq ε] [DecidableEq α] : DecidableEq (Except ε α)
  | Except.error a, Except.error b =>
    if h : a = b then isTrue (by rw [h]) else isFalse (by intro hc; cases hc; exact h rfl)
  | Except.error a, Except.ok b => isFalse (by intro hc; cases hc)
  | Except.ok a, Except.error b => isFalse (by intro hc; cases hc)
  | Except.ok a, Except.ok b =>
    if h : a = b then isTrue (by rw [h]) else isFalse (by intro hc; cases hc; exact h rfl)

/-! ## Claim theorems -/

/-- C1: for the file with exactly the lines `1 1:0.5 3:2.0` and
`-1 2:1.0`, opening yields `shape == 3` and `sampleCount == 2`; the first
read (through the shape-checked `read`) succeeds with `label = 1` and
vector `[0.5, 0, 2.0]`, the second with `label = -1` and vector
`[0, 1.0, 0]`, and a third `read` call returns `false`. -/
theorem svmfile_demo_end_to_end :
    (SVMFile.openFile demoLines).m_shape = 3 ∧
    (SVMFile.openFile demoLines).m_n_samples = 2 ∧
    (SVMFile.openFile demoLines).read 3 =
      Except.ok ((SVMFile.openFile demoLines).read_ 3) ∧
    ((SVMFile.openFile demoLines).read_ 3).ok = true ∧
    ((SVMFile.openFile demoLines).read_ 3).label = 1 ∧
    ((SVMFile.openFile demoLines).read_ 3).values = [1/2, 0, 2] ∧
    (((SVMFile.openFile demoLines).read_ 3).next.read_ 3).ok = true ∧
    (((SVMFile.openFile demoLines).read_ 3).next.read_ 3).label = -1 ∧
    (((SVMFile.openFile demoLines).read_ 3).next.read_ 3).values = [0, 1, 0] ∧
    ((((SVMFile.openFile demoLines).read_ 3).next.read_ 3).next.read_ 3).ok = false := by
  with_unfolding_all decide

/-- C7: `read` on any file state raises the shape error exactly when the
output extent differs from `m_shape`; with a matching extent it returns
(without raising) `false` at end-of-stream and `true` otherwise. -/
theorem svmfile_read_shape_check (f : SVMFile) (len : Nat) :
    (len ≠ f.m_shape → f.read len = Except.error FileError.ShapeError) ∧
    (len = f.m_shape →
      f.read len = Except.ok (f.read_ len) ∧
      ((f.read_ len).ok = false ↔ f.eos = true)) := by
  constructor
  · intro h
    rw [SVMFile.read, if_pos h]
  · intro h
    constructor
    · rw [SVMFile.read, if_neg (by omega)]
    · rw [SVMFile.read_, SVMFile.eos]
      split
      · rename_i hf
        simp [hf]
      · rename_i p line n hf
        rw [hf]
        split
        · simp
        · simp

/-- Witness for C7: on the example file, extent `0 ≠ 3` raises the shape
error, extent `3` passes the check. -/
theorem svmfile_read_shape_check_witness :
    (0 ≠ (SVMFile.openFile demoLines).m_shape ∧
      (SVMFile.openFile demoLines).read 0 = Except.error FileError.ShapeError) ∧
    (3 = (SVMFile.openFile demoLines).m_shape ∧
      (SVMFile.openFile demoLines).read 3 =
        Except.ok ((SVMFile.openFile demoLines).read_ 3)) :=
  ⟨⟨by with_unfolding_all decide,
    (svmfile_read_shape_check (SVMFile.openFile demoLines) 0).1
      (by with_unfolding_all decide)⟩,
   ⟨by with_unfolding_all decide,
    ((svmfile_read_shape_check (SVMFile.openFile demoLines) 3).2
      (by with_unfolding_all decide)).1⟩⟩

/-- C8: after any number of reads, `reset()` followed by re-reading
reproduces exactly the `(label, vector)` sequence of the first pass. -/
theorem svmfile_reset_replay (lines : List (List Char)) (len k n : Nat) :
    readSeq (((SVMFile.openFile lines).afterReads len k).reset) len n =
      readSeq (SVMFile.openFile lines) len n := by
  rw [afterReads_reset]
  have h0 : (SVMFile.openFile lines).reset = SVMFile.openFile lines := by
    rw [SVMFile.reset, SVMFile.openFile]
  rw [h0]

theorem shape_fold_eq (ne : List (List Char)) : ∀ (records : List SparseRecord) (acc : Nat),
    ne.map parseRecord = records.map some →
    ne.foldl (fun sh l => (scanLine l).foldl (fun m p => if m < p then p else m) sh) acc =
      ((records.map (fun r => r.pairs.map Prod.fst)).flatten).foldl max acc := by
  induction ne with
  | nil =>
    intro records acc h
    cases records with
    | nil => rfl
    | cons r rs => simp at h
  | cons l ls ih =>
    intro records acc h
    cases records with
    | nil => simp at h
    | cons r rs =>
      simp only [List.map_cons, List.cons.injEq] at h
      obtain ⟨h1, h2⟩ := h
      rw [List.foldl_cons, scanLine_of_parse l r h1, foldl_ifLt_eq_max, ih rs _ h2]
      simp only [List.map_cons, List.flatten_cons, List.foldl_append]

/-- C2: for every valid sparse-format file, the constructor scan computes
`shape` as the maximum feature index occurring across all lines (`0` when
no pair occurs) and `sampleCount` as the number of non-empty lines. -/
theorem svmfile_open_shape_samples (lines : List (List Char)) (records : List SparseRecord)
    (h : ValidFile lines records) :
    (SVMFile.openFile lines).m_shape =
      ((records.map (fun r => r.pairs.map Prod.fst)).flatten).foldl max 0 ∧
    (SVMFile.openFile lines).m_n_samples =
      (lines.filter (fun l => !(trimChars l).isEmpty)).length := by
  constructor
  · exact shape_fold_eq _ records 0 h
  · show ((lines.map trimChars).filter (fun l => !l.isEmpty)).length = _
    rw [List.filter_map, List.length_map]
    rfl

/-- Witness for C2: the example file is valid for its records, and the
theorem instantiates on it. -/
theorem svmfile_open_shape_samples_witness :
    ValidFile demoLines demoRecords ∧
    (SVMFile.openFile demoLines).m_shape =
      ((demoRecords.map (fun r => r.pairs.map Prod.fst)).flatten).foldl max 0 ∧
    (SVMFile.openFile demoLines).m_n_samples =
      (demoLines.filter (fun l => !(trimChars l).isEmpty)).length :=
  ⟨by with_unfolding_all decide,
   svmfile_open_shape_samples demoLines demoRecords (by with_unfolding_all decide)⟩

/-- C5: the recompute step (`SupportVector::reset`, run by every
constructor and loader) sets `m_input_size` to the maximum feature index
over all support vectors, allocates a scratch of `inputSize + 1` nodes,
and resets `subtract`/`divide` to zeros/ones of length `inputSize`. -/
theorem support_vector_reset_recompute (sv : SupportVector) :
    (sv.reset).m_input_size = maxFeatureIndex sv.m_model.SV ∧
    (sv.reset).m_cache_size = (sv.reset).m_input_size + 1 ∧
    (sv.reset).m_input_sub = List.replicate (sv.reset).m_input_size 0 ∧
    (sv.reset).m_input_div = List.replicate (sv.reset).m_input_size 1 := by
  refine ⟨?_, ?_, rfl, rfl⟩
  · show sv.m_model.SV.foldl (fun m nodes => nodes.foldl bumpIndex m) 0 = _
    rw [reset_inputSize_eq]
    rfl
  · simp only [SupportVector.reset]
    omega

/-- C3: the HDF5-loading constructor runs the recompute step strictly
before reading back the stored normalization vectors, so the loaded
engine carries the stored `subtract`/`divide` (not the identity defaults
that recompute installs) together with the recomputed `inputSize` and
scratch. -/
theorem support_vector_hdf5_load_order (config : HDF5Content) :
    (SupportVector.fromHDF5 config).m_input_sub = config.input_subtract ∧
    (SupportVector.fromHDF5 config).m_input_div = config.input_divide ∧
    (SupportVector.fromHDF5 config).m_model = config.svm_model ∧
    (SupportVector.fromHDF5 config).m_input_size = maxFeatureIndex config.svm_model.SV ∧
    (SupportVector.fromHDF5 config).m_cache_size = maxFeatureIndex config.svm_model.SV + 1 := by
  refine ⟨rfl, rfl, rfl, ?_, ?_⟩
  · show config.svm_model.SV.foldl (fun m nodes => nodes.foldl bumpIndex m) 0 = _
    rw [reset_inputSize_eq]
    rfl
  · show 1 + _ = _ + 1
    rw [reset_inputSize_eq]
    rw [Nat.add_comm]
    rfl

/-- C6: the sparse encoding computes, for each `k` below `inputSize`,
`normalized = (input[k] - subtract[k]) / divide[k]`, omits the pair
exactly when `normalized` is zero, otherwise emits `{index = k+1,
value = normalized}` in order, and terminates with the `-1` sentinel.
(The nonzero-divisor hypothesis keeps the `Rat` division faithful to the
C `double` division.) -/
theorem copy_sparse_encoding (input sub div : List Rat) (n : Nat)
    (_hdiv : ∀ k, k < n → div.getD k 0 ≠ 0) :
    copy input n sub div =
      ((List.range n).filterMap (fun k =>
        if (input.getD k 0 - sub.getD k 0) / div.getD k 0 = 0 then none
        else some ⟨(k : Int) + 1, (input.getD k 0 - sub.getD k 0) / div.getD k 0⟩)) ++
      [⟨-1, 0⟩] := by
  rw [copy]
  rw [foldl_if_append (fun k => (input.getD k 0 - sub.getD k 0) / div.getD k 0)]
  rfl

/-- Witness for C6: a divisor vector with no zero entries, on which the
encoding keeps positions 1 and 3 and omits position 2 (normalized zero). -/
theorem copy_sparse_encoding_witness :
    (∀ k, k < 3 → ([2, 1, 2] : List Rat).getD k 0 ≠ 0) ∧
    copy [3, 1, 4] 3 [1, 1, 0] [2, 1, 2] =
      ((List.range 3).filterMap (fun k =>
        if (([3, 1, 4] : List Rat).getD k 0 - ([1, 1, 0] : List Rat).getD k 0) /
             ([2, 1, 2] : List Rat).getD k 0 = 0 then none
        else some ⟨(k : Int) + 1,
          (([3, 1, 4] : List Rat).getD k 0 - ([1, 1, 0] : List Rat).getD k 0) /
            ([2, 1, 2] : List Rat).getD k 0⟩)) ++ [⟨-1, 0⟩] :=
  ⟨by with_unfolding_all decide,
   copy_sparse_encoding [3, 1, 4] [1, 1, 0] [2, 1, 2] 3 (by with_unfolding_all decide)⟩

/-- C9: `read_` always performs exactly `m_shape` extraction rounds per
record line (first conjunct); a write pass stays fully in bounds exactly
when every extracted pair has index in `[1, length]` (second conjunct);
and on the example file — whose first line holds only two pairs against
`shape = 3` — the out-of-bounds branch is actually reached (third
conjunct). -/
theorem read_extraction_bounds :
    (∀ (n : Nat) (s : List Char), (extractPairs n s).length = n) ∧
    (∀ (v : List Rat) (prs : List (Int × Rat)),
      (applyWrites v prs).2 = false ↔
        ∀ pv ∈ prs, 1 ≤ pv.1 ∧ pv.1 ≤ (v.length : Int)) ∧
    ((SVMFile.openFile demoLines).read_ 3).oob = true :=
  ⟨extractPairs_length,
   fun v prs => applyWrites_oob_iff prs v,
   by with_unfolding_all decide⟩

/-- Witness for C9: instantiation of the bounded-∀ parts on the example
file's first line (the tail after its label) and on a concrete write
pass. -/
theorem read_extraction_bounds_witness :
    (extractPairs 3 (" 1:0.5 3:2.0".data)).length = 3 ∧
    ((applyWrites [0, 0, 0] [(2, 1)]).2 = false ↔
      ∀ pv ∈ [((2 : Int), (1 : Rat))], 1 ≤ pv.1 ∧ pv.1 ≤ (([0, 0, 0] : List Rat).length : Int)) :=
  ⟨read_extraction_bounds.1 3 (" 1:0.5 3:2.0".data),
   read_extraction_bounds.2.1 [0, 0, 0] [(2, 1)]⟩

/-- C4: with an input long enough to pass the input-length check,
`predictClassAndScores` raises the dimension error exactly when the
scores length differs from `outputSize() < 2 ? 1 : C*(C-1)/2`; in
particular a binary model (`outputSize() == 1`) demands length `1` and a
3-class model demands length `3`. -/
theorem predict_scores_dim_check (sv : SupportVector) (input : List Rat) (slen : Nat)
    (h : sv.inputSize ≤ input.length) :
    ((sv.predictClassAndScores input slen = Except.error SvmError.DimensionError) ↔
      slen ≠ (if sv.outputSize < 2 then 1
              else sv.outputSize * (sv.outputSize - 1) / 2)) ∧
    (sv.outputSize = 1 →
      ((sv.predictClassAndScores input slen = Except.error SvmError.DimensionError) ↔
        slen ≠ 1)) ∧
    (sv.outputSize = 3 →
      ((sv.predictClassAndScores input slen = Except.error SvmError.DimensionError) ↔
        slen ≠ 3)) := by
  have hmain : (sv.predictClassAndScores input slen = Except.error SvmError.DimensionError) ↔
      slen ≠ (if sv.outputSize < 2 then 1 else sv.outputSize * (sv.outputSize - 1) / 2) := by
    rw [SupportVector.predictClassAndScores]
    rw [if_neg (by omega : ¬ input.length < sv.inputSize)]
    by_cases hs : slen = (if sv.outputSize < 2 then 1
        else sv.outputSize * (sv.outputSize - 1) / 2)
    · rw [if_neg (by simp [hs])]
      simp [hs]
    · rw [if_pos (by simpa using hs)]
      simp [hs]
  refine ⟨hmain, ?_, ?_⟩
  · intro h1
    rw [hmain, h1]
    norm_num
  · intro h3
    rw [hmain, h3]
    norm_num

/-- Witness for C4: `demoMachine` is binary (`outputSize = 1`) with
`inputSize = 3`; a scores buffer of length 2 is rejected, length 1 is
demanded. -/
theorem predict_scores_dim_check_witness :
    demoMachine.inputSize ≤ ([1, 2, 3] : List Rat).length ∧
    demoMachine.outputSize = 1 ∧
    ((demoMachine.predictClassAndScores [1, 2, 3] 2 = Except.error SvmError.DimensionError) ↔
      2 ≠ 1) :=
  ⟨by with_unfolding_all decide,
   by with_unfolding_all decide,
   (predict_scores_dim_check demoMachine [1, 2, 3] 2
      (by with_unfolding_all decide)).2.1 (by with_unfolding_all decide)⟩

/-- C10: `setInputDivision` checks only the length of its argument — any
vector of length ≥ `inputSize`, zero entries included, is accepted and
stored as-is — and the subsequent prediction path runs unguarded: with
the input-length check passed it reaches the solver call, whose encoding
divides by the stored vector with no zero test. -/
theorem set_division_unvalidated (sv : SupportVector) (v : List Rat)
    (hv : sv.inputSize ≤ v.length) (input : List Rat)
    (hi : sv.inputSize ≤ input.length) :
    sv.setInputDivision v = Except.ok { sv with m_input_div := v } ∧
    ({ sv with m_input_div := v } : SupportVector).predictClass input =
      Except.ok (roundC (sv.m_model.predict
        (copy input sv.m_input_size sv.m_input_sub v))) := by
  constructor
  · rw [SupportVector.setInputDivision, if_neg (by omega : ¬ sv.inputSize > v.length)]
  · rw [SupportVector.predictClass,
      if_neg (show ¬ input.length < ({ sv with m_input_div := v } : SupportVector).inputSize by
        show ¬ input.length < sv.inputSize
        omega)]
    rfl

/-- Witness for C10: the all-zero divisor of length `3 = inputSize` is
accepted by `demoMachine` and prediction still proceeds. -/
theorem set_division_unvalidated_witness :
    demoMachine.inputSize ≤ ([0, 0, 0] : List Rat).length ∧
    demoMachine.setInputDivision [0, 0, 0] =
      Except.ok { demoMachine with m_input_div := [0, 0, 0] } :=
  ⟨by with_unfolding_all decide,
   (set_division_unvalidated demoMachine [0, 0, 0] (by with_unfolding_all decide)
      [1, 2, 3] (by with_unfolding_all decide)).1⟩
